import Mathlib

/-!
# Verification of the aptashboard fraud risk-scoring engine

Shallow embedding of the risk-scoring code in
`src/api/fraud-detection.py`, `src/ml_services/fraud_detector.py` and
`src/ml_cli.py`.  Python floats are modelled as rationals (`ℚ`); strings
as `List Char`; the current wall-clock time (`time.time()`) is passed as
an explicit argument `now`; the isolation-forest decision value is passed
as an explicit argument `anomalyScore`, since model inference is an
external collaborator of the scoring core.
-/

namespace Aptash

/-- The `analysis` sub-object echoed in the success record of
`handler.analyze_transaction` (src/api/fraud-detection.py lines 116-121). -/
structure AnalysisEcho where
  amount : ℚ
  sender_length : ℕ
  recipient_length : ℕ
  timestamp : ℤ
deriving DecidableEq

/-- The success record returned by `handler.analyze_transaction`
(src/api/fraud-detection.py lines 108-122). -/
structure RiskResult where
  risk_score : ℚ
  is_suspicious : Bool
  is_high_risk : Bool
  risk_factors : List String
  confidence : ℚ
  model : String
  status : String
  analysis : AnalysisEcho
deriving DecidableEq

/-- Python's `round(x, 3)` modelled over `ℚ`: round to 3 decimal places.
(All values reaching this function in the verified claims are exact
multiples of 1/1000, where every rounding convention agrees.) -/
def round3 (x : ℚ) : ℚ := ((x * 1000 + 1/2).floor : ℚ) / 1000

/-- Amount-tier risk delta: the `if amount > 100000 / elif amount > 10000 /
elif amount < 0.001` chain of `analyze_transaction`
(src/api/fraud-detection.py lines 66-75), score contributions only. -/
def amountRiskDelta (amount : ℚ) : ℚ :=
  if 100000 < amount then 2/5
  else if 10000 < amount then 1/5
  else if amount < 1/1000 then 3/20
  else 0

/-- Amount-tier risk factors appended by the same `if/elif` chain
(src/api/fraud-detection.py lines 66-75). -/
def amountRiskFactors (amount : ℚ) : List String :=
  if 100000 < amount then ["very_high_amount"]
  else if 10000 < amount then ["high_amount"]
  else if amount < 1/1000 then ["micro_transaction"]
  else []

/-- Number of positions where two addresses differ:
`sum(1 for a, b in zip(sender, recipient) if a != b)`
(src/api/fraud-detection.py line 145). -/
def diffCount (s r : List Char) : ℕ :=
  (s.zip r).countP (fun p => decide (p.1 ≠ p.2))

/-- Low character diversity test `len(set(a)) < len(a) / 3`
(src/api/fraud-detection.py line 140); note `/` is Python float division,
modelled as exact division in `ℚ`. -/
def lowDiversity (s : List Char) : Bool :=
  decide ((s.dedup.length : ℚ) < (s.length : ℚ) / 3)

/-- The round-amount membership test of the API pattern check,
`amount in [1000, 5000, 10000, 50000, 100000]`
(src/api/fraud-detection.py line 136). -/
def apiRoundAmountCheck (amount : ℚ) : Bool :=
  decide (amount ∈ ([1000, 5000, 10000, 50000, 100000] : List ℚ))

/-- `handler._check_suspicious_patterns`
(src/api/fraud-detection.py lines 132-151): round amount, then low
character diversity of either address, then near-duplicate addresses
(equal length and Hamming distance ≤ 2). -/
def checkSuspiciousPatterns (sender recipient : List Char) (amount : ℚ) : Bool :=
  if apiRoundAmountCheck amount then true
  else if lowDiversity sender || lowDiversity recipient then true
  else if sender.length = recipient.length ∧ diffCount sender recipient ≤ 2 then true
  else false

/-- `handler._analyze_timing` (src/api/fraud-detection.py lines 153-174),
with `time.time()` passed explicitly as `now`.  The hour of day uses
Python's nonnegative `%` on a positive modulus, which coincides with
`Int.emod`. -/
def analyzeTiming (timestamp : ℤ) (now : ℚ) : ℚ :=
  if now + 300 < (timestamp : ℚ) then 3/10
  else if (86400 * 30 : ℚ) < now - (timestamp : ℚ) then 1/5
  else if (timestamp % 86400) / 3600 < 5 ∨ 23 < (timestamp % 86400) / 3600 then 1/10
  else 0

/-- The anomaly-score-to-risk conversion of `handler._ml_fraud_detection`,
`max(0, min(1, (1 - anomaly_score) / 2))`
(src/api/fraud-detection.py line 200).  The isolation-forest decision
value itself is supplied by the external model, hence a parameter. -/
def mlRiskOf (anomalyScore : ℚ) : ℚ := max 0 (min 1 ((1 - anomalyScore) / 2))

/-- `handler.analyze_transaction` (src/api/fraud-detection.py lines 54-122),
success path.  `mlAvailable` models the `ML_AVAILABLE` import flag and
`anomalyScore` the isolation-forest decision value consumed by
`_ml_fraud_detection`. -/
def analyzeTransaction (sender recipient : List Char) (amount : ℚ)
    (timestamp : ℤ) (now : ℚ) (mlAvailable : Bool) (anomalyScore : ℚ) :
    RiskResult :=
  let timeRisk : ℚ := if timestamp ≠ 0 then analyzeTiming timestamp now else 0
  let mlRisk : ℚ := if mlAvailable then mlRiskOf anomalyScore else 0
  let risk : ℚ :=
    amountRiskDelta amount
    + (if sender = recipient then 3/10 else 0)
    + (if sender.length < 10 ∨ recipient.length < 10 then 1/5 else 0)
    + (if checkSuspiciousPatterns sender recipient amount then 3/10 else 0)
    + timeRisk
    + mlRisk * (3/10)
  let factors : List String :=
    amountRiskFactors amount
    ++ (if sender = recipient then ["self_transaction"] else [])
    ++ (if sender.length < 10 ∨ recipient.length < 10 then ["invalid_address_format"] else [])
    ++ (if checkSuspiciousPatterns sender recipient amount then ["suspicious_pattern"] else [])
    ++ (if timestamp ≠ 0 ∧ (1/10 : ℚ) < analyzeTiming timestamp now then ["unusual_timing"] else [])
    ++ (if mlAvailable ∧ (7/10 : ℚ) < mlRiskOf anomalyScore then ["ml_anomaly_detected"] else [])
  let clamped : ℚ := min 1 (max 0 risk)
  { risk_score := round3 clamped
    is_suspicious := decide ((3/5 : ℚ) < clamped)
    is_high_risk := decide ((4/5 : ℚ) < clamped)
    risk_factors := factors
    confidence := if mlAvailable then 17/20 else 7/10
    model := if mlAvailable then "hybrid_detection" else "rule_based"
    status := "success"
    analysis :=
      { amount := amount
        sender_length := sender.length
        recipient_length := recipient.length
        timestamp := timestamp } }

/-- The round-amount feature flag of `FraudDetector.extract_features`,
`1 if amount_float in [10, 50, 100, 500, 1000, 5000, 10000] else 0`
(src/ml_services/fraud_detector.py line 51), as a Bool. -/
def isRoundAmountFeature (amount : ℚ) : Bool :=
  decide (amount ∈ ([10, 50, 100, 500, 1000, 5000, 10000] : List ℚ))

/-- Python's `s.count(p)` for a two-character pattern `p = [a, b]`: the
number of non-overlapping occurrences, scanning left to right (on a match
the scan skips past both matched characters). -/
def countOcc2 : List Char → Char → Char → ℕ
  | [], _, _ => 0
  | [_], _, _ => 0
  | x :: y :: rest, a, b =>
    if x = a ∧ y = b then 1 + countOcc2 rest a b
    else countOcc2 (y :: rest) a b

/-- `FraudDetector._has_repeated_pattern`
(src/ml_services/fraud_detector.py lines 106-122): a first scan over
start indices `i < len - 3` looking for a 2-character pattern with
`count >= 3`, then a second scan over `i < len - 5` looking for three
identical consecutive characters. -/
def hasRepeatedPattern (address : List Char) : Bool :=
  if address.length < 4 then false
  else if (List.range (address.length - 3)).any (fun i =>
      decide (3 ≤ countOcc2 address (address.getD i 'a') (address.getD (i + 1) 'a'))) then
    true
  else if (List.range (address.length - 5)).any (fun i =>
      decide (address.getD i 'a' = address.getD (i + 1) 'a' ∧
              address.getD (i + 1) 'a' = address.getD (i + 2) 'a')) then
    true
  else false

/-- Modelled from the spec: the repeated-pattern flag exactly as the spec
sentence words it — true when some 2-character substring (any start
index up to `len - 2`) occurs at least 3 times, or some 3 consecutive
characters (any start index up to `len - 3`) are identical; addresses
shorter than 4 characters are never flagged.  Used only to exhibit the
divergence from `hasRepeatedPattern`. -/
def specRepeatedPattern (address : List Char) : Bool :=
  if address.length < 4 then false
  else
    (List.range (address.length - 1)).any (fun j =>
      decide (3 ≤ countOcc2 address (address.getD j 'a') (address.getD (j + 1) 'a')))
    || (List.range (address.length - 2)).any (fun i =>
      decide (address.getD i 'a' = address.getD (i + 1) 'a' ∧
              address.getD (i + 1) 'a' = address.getD (i + 2) 'a'))

/-- The error record built by the `except` branch of
`handler.analyze_transaction` (src/api/fraud-detection.py lines 124-130)
and by `FraudDetector.analyze_transaction`
(src/ml_services/fraud_detector.py lines 325-332). -/
structure ErrorResponse where
  error : String
  risk_score : ℚ
  is_suspicious : Bool
  status : String
deriving DecidableEq

/-- `handler.analyze_transaction` fallback
(src/api/fraud-detection.py lines 124-130). -/
def apiAnalyzeErrorResponse (msg : String) : ErrorResponse :=
  { error := "Fraud analysis failed: " ++ msg
    risk_score := 1/2
    is_suspicious := false
    status := "error" }

/-- `FraudDetector.analyze_transaction` fallback
(src/ml_services/fraud_detector.py lines 325-332). -/
def detectorAnalyzeErrorResponse (msg : String) : ErrorResponse :=
  { error := msg
    risk_score := 1/2
    is_suspicious := false
    status := "error" }

/-- The error record built by the outer `except` of
`predict_fraud_ml` (src/ml_cli.py lines 118-125); unlike the other two
fallbacks it carries `prediction`/`model` fields, scores 0.1, and has no
`is_suspicious` field at all. -/
structure CliErrorResponse where
  error : String
  prediction : ℚ
  risk_score : ℚ
  model : String
  status : String
deriving DecidableEq

/-- `predict_fraud_ml` outer-except fallback (src/ml_cli.py lines 118-125). -/
def cliFraudErrorResponse (msg : String) : CliErrorResponse :=
  { error := "Fraud prediction failed: " ++ msg
    prediction := 1/10
    risk_score := 1/10
    model := "error_fallback"
    status := "error" }

/-- The combined risk of `FraudDetector.analyze_transaction`,
`combined_risk = (fraud_probability * 0.7) + ((1 - (anomaly_score + 1) / 2) * 0.3)`
followed by `combined_risk = max(0, min(1, combined_risk))`
(src/ml_services/fraud_detector.py lines 292-294).  The classifier
probability and the isolation-forest decision value are inputs from the
fitted models. -/
def detectorCombinedRisk (fraudProbability anomalyScore : ℚ) : ℚ :=
  max 0 (min 1 (fraudProbability * (7/10) + (1 - (anomalyScore + 1) / 2) * (3/10)))

/-- The rule-based fallback score of `predict_fraud_ml`
(src/ml_cli.py lines 84-105): base 0.1, amount tier, case-insensitive
self-transfer check, short-address check, then `min(risk_score, 1.0)`. -/
def cliFallbackRiskScore (sender recipient : List Char) (amount : ℚ) : ℚ :=
  let r1 : ℚ := 1/10 + (if 10000 < amount then 3/10 else if 1000 < amount then 1/10 else 0)
  let r2 : ℚ := r1 + (if sender.map Char.toLower = recipient.map Char.toLower then 2/5 else 0)
  let r3 : ℚ := r2 + (if sender.length < 10 ∨ recipient.length < 10 then 1/5 else 0)
  min r3 1

/-- 42-character address `0x` followed by forty `A`s, from the §8 scenario. -/
def addrA : List Char := "0x".data ++ List.replicate 40 'A'

/-- 42-character address `0x` followed by forty `B`s, from the §8 scenario. -/
def addrB : List Char := "0x".data ++ List.replicate 40 'B'

/-- A well-formed 18-character address with high character diversity. -/
def addrX : List Char := "0x123456789abcdef0".data

/-- A second well-formed 18-character address, distinct from `addrX` at
more than two positions. -/
def addrY : List Char := "0xfedcba9876543210".data

/-! ## Helper lemmas -/

theorem ratFloor_mono {x y : ℚ} (h : x ≤ y) : x.floor ≤ y.floor :=
  Rat.le_floor.mpr (le_trans (Rat.le_floor.mp le_rfl) h)

theorem round3_mono {x y : ℚ} (h : x ≤ y) : round3 x ≤ round3 y := by
  unfold round3
  have hf : (x * 1000 + 1/2).floor ≤ (y * 1000 + 1/2).floor :=
    ratFloor_mono (by linarith)
  have hq : (((x * 1000 + 1/2).floor : ℤ) : ℚ) ≤ (((y * 1000 + 1/2).floor : ℤ) : ℚ) := by
    exact_mod_cast hf
  linarith

theorem round3_zero : round3 0 = 0 := by with_unfolding_all decide

theorem round3_one : round3 1 = 1 := by with_unfolding_all decide

theorem round3_nonneg {x : ℚ} (h : 0 ≤ x) : 0 ≤ round3 x := by
  have := round3_mono h
  rwa [round3_zero] at this

theorem round3_le_one {x : ℚ} (h : x ≤ 1) : round3 x ≤ 1 := by
  have := round3_mono h
  rwa [round3_one] at this

theorem diffCount_self (s : List Char) : diffCount s s = 0 := by
  unfold diffCount
  induction s with
  | nil => rfl
  | cons x xs ih => simpa [List.countP_cons] using ih

theorem checkSuspiciousPatterns_self (s : List Char) (amount : ℚ) :
    checkSuspiciousPatterns s s amount = true := by
  unfold checkSuspiciousPatterns
  split
  · rfl
  split
  · rfl
  rw [if_pos ⟨rfl, by simp [diffCount_self]⟩]

/-- The `risk_score` field of the success record is the 3-decimal
rounding of the clamped sum (src/api/fraud-detection.py lines 105-109). -/
theorem analyzeTransaction_risk_score (sender recipient : List Char)
    (amount : ℚ) (timestamp : ℤ) (now : ℚ) (mlAvailable : Bool)
    (anomalyScore : ℚ) :
    (analyzeTransaction sender recipient amount timestamp now mlAvailable
        anomalyScore).risk_score =
      round3 (min 1 (max 0
        (amountRiskDelta amount
          + (if sender = recipient then 3/10 else 0)
          + (if sender.length < 10 ∨ recipient.length < 10 then 1/5 else 0)
          + (if checkSuspiciousPatterns sender recipient amount then 3/10 else 0)
          + (if timestamp ≠ 0 then analyzeTiming timestamp now else 0)
          + (if mlAvailable then mlRiskOf anomalyScore else 0) * (3/10)))) :=
  rfl

/-- With `timestamp = 0` the timing branch is skipped, so the result does
not depend on the wall-clock time. -/
theorem analyzeTransaction_ts_zero (sender recipient : List Char)
    (amount : ℚ) (now : ℚ) (mlAvailable : Bool) (anomalyScore : ℚ) :
    analyzeTransaction sender recipient amount 0 now mlAvailable anomalyScore
      = analyzeTransaction sender recipient amount 0 0 mlAvailable anomalyScore := by
  simp [analyzeTransaction]

/-! ## Claim theorems -/

/-- C1: for every transaction input, the `risk_score` of the returned
assessment lies in `[0, 1]`: the combined score is clamped before being
returned.  Stated for all three scoring paths: the API rule engine, the
`FraudDetector` ensemble combination, and the CLI rule-based fallback. -/
theorem claim1_risk_score_in_unit_interval :
    (∀ sender recipient amount timestamp now mlAvailable anomalyScore,
      0 ≤ (analyzeTransaction sender recipient amount timestamp now
            mlAvailable anomalyScore).risk_score ∧
      (analyzeTransaction sender recipient amount timestamp now
            mlAvailable anomalyScore).risk_score ≤ 1) ∧
    (∀ p a, 0 ≤ detectorCombinedRisk p a ∧ detectorCombinedRisk p a ≤ 1) ∧
    (∀ sender recipient amount,
      0 ≤ cliFallbackRiskScore sender recipient amount ∧
      cliFallbackRiskScore sender recipient amount ≤ 1) := by
  refine ⟨?_, ?_, ?_⟩
  · intro s r amount ts now ml an
    rw [analyzeTransaction_risk_score]
    exact ⟨round3_nonneg (le_min (by norm_num) (le_max_left _ _)),
           round3_le_one (min_le_left _ _)⟩
  · intro p a
    unfold detectorCombinedRisk
    exact ⟨le_max_left _ _, max_le (by norm_num) (min_le_left _ _)⟩
  · intro s r amount
    unfold cliFallbackRiskScore
    refine ⟨le_min ?_ (by norm_num), min_le_right _ _⟩
    split_ifs <;> norm_num

/-- C2 counterexample: the CLI fallback record scores 0.1, not the 0.5
the claim asserts for every handler of the scoring pipeline. -/
theorem claim2_counterexample :
    (cliFraudErrorResponse "boom").status = "error" ∧
    (cliFraudErrorResponse "boom").risk_score ≠ 1/2 := by decide!

/-- C2 amended: the API handler and the `FraudDetector` handler return the
fixed degraded record (`status="error"`, `risk_score=0.5`,
`is_suspicious=false`, human-readable `error`); the CLI handler returns
`status="error"` with `risk_score=0.1`, `prediction=0.1`,
`model="error_fallback"` and no `is_suspicious` field. -/
theorem claim2_error_fallback_records (msg : String) :
    (apiAnalyzeErrorResponse msg).status = "error" ∧
    (apiAnalyzeErrorResponse msg).risk_score = 1/2 ∧
    (apiAnalyzeErrorResponse msg).is_suspicious = false ∧
    (apiAnalyzeErrorResponse msg).error = "Fraud analysis failed: " ++ msg ∧
    (detectorAnalyzeErrorResponse msg).status = "error" ∧
    (detectorAnalyzeErrorResponse msg).risk_score = 1/2 ∧
    (detectorAnalyzeErrorResponse msg).is_suspicious = false ∧
    (detectorAnalyzeErrorResponse msg).error = msg ∧
    (cliFraudErrorResponse msg).status = "error" ∧
    (cliFraudErrorResponse msg).risk_score = 1/10 ∧
    (cliFraudErrorResponse msg).prediction = 1/10 ∧
    (cliFraudErrorResponse msg).model = "error_fallback" :=
  ⟨rfl, rfl, rfl, rfl, rfl, rfl, rfl, rfl, rfl, rfl, rfl, rfl⟩

/-- C3 counterexample: on the §8 scenario (`amount = 100000`,
`timestamp = 0`, the two 42-character addresses) the code does not fire
`very_high_amount`, does not score 0.70, and is not suspicious —
`amount > 100000` is strict, so 100000 lands in the `high_amount` tier. -/
theorem claim3_counterexample :
    ¬ ("very_high_amount" ∈
          (analyzeTransaction addrA addrB 100000 0 0 false 0).risk_factors ∧
       (analyzeTransaction addrA addrB 100000 0 0 false 0).risk_score = 7/10 ∧
       (analyzeTransaction addrA addrB 100000 0 0 false 0).is_suspicious = true) := by
  decide!

/-- C3 amended: on that scenario the rule engine returns
`risk_factors = ["high_amount", "suspicious_pattern"]`,
`risk_score = 0.50` (0.20 + 0.30), and both flags false. -/
theorem claim3_scenario_actual (now : ℚ) :
    analyzeTransaction addrA addrB 100000 0 now false 0 =
      { risk_score := 1/2
        is_suspicious := false
        is_high_risk := false
        risk_factors := ["high_amount", "suspicious_pattern"]
        confidence := 7/10
        model := "rule_based"
        status := "success"
        analysis := { amount := 100000, sender_length := 42,
                      recipient_length := 42, timestamp := 0 } } := by
  have h := analyzeTransaction_ts_zero addrA addrB 100000 now false 0
  rw [h]
  decide!

/-- C6 counterexample: the rule path reads the wall clock (`time.time()`
inside `_analyze_timing`), so the same transaction analysed at two
different current times yields different records. -/
theorem claim6_counterexample :
    analyzeTransaction addrX addrY 5 1000 0 false 0 ≠
      analyzeTransaction addrX addrY 5 1000 2000 false 0 := by decide!

/-- C6 amended: given identical transaction fields, the same current
time, the same `ML_AVAILABLE` flag and the same statistical signal, two
calls return identical `RiskAssessment` records — the analysis is a pure
function of those inputs, but it does depend on the current time. -/
theorem claim6_rule_path_deterministic
    (s1 s2 r1 r2 : List Char) (a1 a2 : ℚ) (t1 t2 : ℤ) (n1 n2 : ℚ)
    (m1 m2 : Bool) (an1 an2 : ℚ)
    (hs : s1 = s2) (hr : r1 = r2) (ha : a1 = a2) (ht : t1 = t2)
    (hn : n1 = n2) (hm : m1 = m2) (han : an1 = an2) :
    analyzeTransaction s1 r1 a1 t1 n1 m1 an1 =
      analyzeTransaction s2 r2 a2 t2 n2 m2 an2 := by
  subst hs; subst hr; subst ha; subst ht; subst hn; subst hm; subst han; rfl

/-- Witness for C6: the determinism theorem applied at a concrete input. -/
theorem claim6_witness :
    analyzeTransaction addrX addrY 5 1000 0 false 0 =
      analyzeTransaction addrX addrY 5 1000 0 false 0 :=
  claim6_rule_path_deterministic addrX addrX addrY addrY 5 5 1000 1000 0 0
    false false 0 0 rfl rfl rfl rfl rfl rfl rfl

/-- C7 counterexample: the feature extractor's round-amount list stops at
10000 — the flag is false at 50000 and at 100000, both members of the
claimed nine-value set. -/
theorem claim7_counterexample :
    isRoundAmountFeature 50000 = false ∧ isRoundAmountFeature 100000 = false := by
  decide!

/-- C7 amended: the feature extractor's flag is exact equality against the
seven values {10, 50, 100, 500, 1000, 5000, 10000}; the API pattern
check separately tests exact equality against
{1000, 5000, 10000, 50000, 100000}. -/
theorem claim7_round_amount_exact (a : ℚ) :
    (isRoundAmountFeature a = true ↔
      a = 10 ∨ a = 50 ∨ a = 100 ∨ a = 500 ∨ a = 1000 ∨ a = 5000 ∨ a = 10000) ∧
    (apiRoundAmountCheck a = true ↔
      a = 1000 ∨ a = 5000 ∨ a = 10000 ∨ a = 50000 ∨ a = 100000) := by
  constructor <;> simp [isRoundAmountFeature, apiRoundAmountCheck]

/-- C9 counterexample: at `p = 0`, `a = -3` the code returns 0.6 (the
anomaly term `(1 - a)/2 = 2` enters the sum unclipped), while the claimed
formula with the individually clipped `normalize(a)` gives 0.3. -/
theorem claim9_counterexample :
    detectorCombinedRisk 0 (-3) ≠ (7/10) * 0 + (3/10) * mlRiskOf (-3) := by
  decide!

/-- C9 amended: the code computes
`clamp01(0.7·p + 0.3·(1 − a)/2)` without clipping the anomaly term
individually; on the intended ranges `p ∈ [0,1]`, `a ∈ [-1,1]` this
coincides with the claimed convex blend `0.7·p + 0.3·normalize(a)`, and
`base_score` does not enter the sum (it is not even an argument). -/
theorem claim9_convex_blend (p a : ℚ) (hp0 : 0 ≤ p) (hp1 : p ≤ 1)
    (ha0 : -1 ≤ a) (ha1 : a ≤ 1) :
    detectorCombinedRisk p a = (7/10) * p + (3/10) * mlRiskOf a := by
  have hnorm : mlRiskOf a = (1 - a) / 2 := by
    unfold mlRiskOf
    rw [min_eq_right (by linarith), max_eq_right (by linarith)]
  unfold detectorCombinedRisk
  rw [hnorm]
  have h1 : 0 ≤ p * (7/10 : ℚ) := mul_nonneg hp0 (by norm_num)
  have h2 : 0 ≤ (1 - (a + 1) / 2) * (3/10 : ℚ) :=
    mul_nonneg (by linarith) (by norm_num)
  have h3 : p * (7/10 : ℚ) ≤ 7/10 := by nlinarith
  have h4 : (1 - (a + 1) / 2) * (3/10 : ℚ) ≤ 3/10 := by nlinarith
  rw [min_eq_right (by linarith), max_eq_right (by linarith)]
  ring

/-- Witness for C9: the amended blend identity at `p = 1/2`, `a = 0`. -/
theorem claim9_witness :
    detectorCombinedRisk (1/2) 0 = (7/10) * (1/2) + (3/10) * mlRiskOf 0 :=
  claim9_convex_blend (1/2) 0 (by norm_num) (by norm_num) (by norm_num)
    (by norm_num)

/-- C10: with the handler defaults (`sender=""`, `recipient=""`,
`amount=0`, `timestamp=0`) and the ML path off, the rule engine returns
`status="success"` with all four codes `micro_transaction`,
`self_transaction`, `invalid_address_format`, `suspicious_pattern`
present, and both `is_suspicious` and `is_high_risk` true. -/
theorem claim10_missing_input_maximal_risk (now : ℚ) :
    (analyzeTransaction [] [] 0 0 now false 0).status = "success" ∧
    "micro_transaction" ∈ (analyzeTransaction [] [] 0 0 now false 0).risk_factors ∧
    "self_transaction" ∈ (analyzeTransaction [] [] 0 0 now false 0).risk_factors ∧
    "invalid_address_format" ∈ (analyzeTransaction [] [] 0 0 now false 0).risk_factors ∧
    "suspicious_pattern" ∈ (analyzeTransaction [] [] 0 0 now false 0).risk_factors ∧
    (analyzeTransaction [] [] 0 0 now false 0).is_suspicious = true ∧
    (analyzeTransaction [] [] 0 0 now false 0).is_high_risk = true := by
  have h := analyzeTransaction_ts_zero [] [] 0 now false 0
  rw [h]
  decide!

/-- C4 counterexample: for the well-formed 18-character address used as
both sender and recipient with `amount = 1`, `timestamp = 0`, the factors
are not exactly `["self_transaction"]` and the score is not 0.30 — equal
addresses always also trip the near-duplicate address check
(equal lengths, Hamming distance 0 ≤ 2), adding `suspicious_pattern`. -/
theorem claim4_counterexample :
    ¬ ((analyzeTransaction addrX addrX 1 0 0 false 0).risk_factors =
          ["self_transaction"] ∧
       (analyzeTransaction addrX addrX 1 0 0 false 0).risk_score = 3/10) := by
  decide!

/-- C4 amended: for any address of well-formed length (≥ 10 characters)
used as both sender and recipient with `amount = 1`, `timestamp = 0`, the
result is `risk_factors = ["self_transaction", "suspicious_pattern"]`,
`risk_score = 0.60`, and both flags false. -/
theorem claim4_self_scenario (s : List Char) (now : ℚ) (h : 10 ≤ s.length) :
    analyzeTransaction s s 1 0 now false 0 =
      { risk_score := 3/5
        is_suspicious := false
        is_high_risk := false
        risk_factors := ["self_transaction", "suspicious_pattern"]
        confidence := 7/10
        model := "rule_based"
        status := "success"
        analysis := { amount := 1, sender_length := s.length,
                      recipient_length := s.length, timestamp := 0 } } := by
  have hd : amountRiskDelta 1 = 0 := by decide!
  have hfa : amountRiskFactors 1 = ([] : List String) := by decide!
  have hsp : checkSuspiciousPatterns s s 1 = true := checkSuspiciousPatterns_self s 1
  have hfmt : ¬(s.length < 10 ∨ s.length < 10) := by omega
  have hr3 : round3 (min 1 (max 0 ((0 : ℚ) + 3/10 + 0 + 3/10 + 0 + 0 * (3/10)))) = 3/5 := by
    decide!
  have hsus : decide ((3/5 : ℚ) < min 1 (max 0 ((0 : ℚ) + 3/10 + 0 + 3/10 + 0 + 0 * (3/10)))) = false := by
    decide!
  have hhigh : decide ((4/5 : ℚ) < min 1 (max 0 ((0 : ℚ) + 3/10 + 0 + 3/10 + 0 + 0 * (3/10)))) = false := by
    decide!
  unfold analyzeTransaction
  simp only [hd, hfa, hsp, hfmt, if_pos rfl, if_true, if_false, ite_true, ite_false,
    ne_eq, not_true_eq_false, not_false_eq_true, false_and, List.nil_append,
    List.cons_append, List.append_nil, Bool.false_eq_true, reduceIte]
  rw [hr3, hsus, hhigh]

/-- Witness for C4 amended: the scenario at the concrete 18-character
address and `now = 0`. -/
theorem claim4_witness :
    analyzeTransaction addrX addrX 1 0 0 false 0 =
      { risk_score := 3/5
        is_suspicious := false
        is_high_risk := false
        risk_factors := ["self_transaction", "suspicious_pattern"]
        confidence := 7/10
        model := "rule_based"
        status := "success"
        analysis := { amount := 1, sender_length := addrX.length,
                      recipient_length := addrX.length, timestamp := 0 } } :=
  claim4_self_scenario addrX 0 (by decide)

/-- C5 counterexample: strictness fails under clamp saturation — with
`amount = 200000`, future timestamp 1000 at current time 0, both the
self-transaction and the distinct-address variant clamp to score 1.0, so
the self score is not strictly greater. -/
theorem claim5_counterexample :
    ¬ ((analyzeTransaction ['a', 'a'] ['b', 'b'] 200000 1000 0 false 0).risk_score <
       (analyzeTransaction ['a', 'a'] ['a', 'a'] 200000 1000 0 false 0).risk_score) := by
  decide!

/-- C5 amended: when sender equals recipient, `self_transaction` is among
the risk factors, and the returned (clamped, rounded) risk score is at
least — not always strictly above — that of the otherwise-identical
transaction with a distinct recipient. -/
theorem claim5_self_transaction_dominates (s r : List Char) (amount : ℚ)
    (ts : ℤ) (now : ℚ) (ml : Bool) (an : ℚ) (h : r ≠ s) :
    "self_transaction" ∈ (analyzeTransaction s s amount ts now ml an).risk_factors ∧
    (analyzeTransaction s r amount ts now ml an).risk_score ≤
      (analyzeTransaction s s amount ts now ml an).risk_score := by
  constructor
  · simp [analyzeTransaction]
  · rw [analyzeTransaction_risk_score, analyzeTransaction_risk_score]
    apply round3_mono
    apply min_le_min le_rfl
    apply max_le_max le_rfl
    have e1 : (if s = r then (3 : ℚ)/10 else 0) = 0 :=
      if_neg (fun hh => h hh.symm)
    have e2 : (if s = s then (3 : ℚ)/10 else 0) = 3/10 := if_pos rfl
    have e3 : (if checkSuspiciousPatterns s s amount then (3 : ℚ)/10 else 0) = 3/10 := by
      rw [checkSuspiciousPatterns_self]
      simp
    have e4 : (if checkSuspiciousPatterns s r amount then (3 : ℚ)/10 else 0) ≤ 3/10 := by
      split <;> norm_num
    have e5 : (if s.length < 10 ∨ r.length < 10 then (1 : ℚ)/5 else 0) ≤ 1/5 := by
      split <;> norm_num
    have e6 : (0 : ℚ) ≤ (if s.length < 10 ∨ s.length < 10 then (1 : ℚ)/5 else 0) := by
      split <;> norm_num
    rw [e1, e2, e3]
    linarith

/-- Witness for C5 amended: applied at two concrete distinct addresses. -/
theorem claim5_witness :
    "self_transaction" ∈ (analyzeTransaction addrX addrX 5 0 0 false 0).risk_factors ∧
    (analyzeTransaction addrX addrY 5 0 0 false 0).risk_score ≤
      (analyzeTransaction addrX addrX 5 0 0 false 0).risk_score :=
  claim5_self_transaction_dominates addrX addrY 5 0 0 false 0 (by decide)

/-- If a two-character pattern has non-overlapping count at least `k ≥ 1`
in `s`, then it matches at some start index `i` with `i + 2k ≤ length s`
(in particular the first match leaves room for the later ones). -/
theorem countOcc2_match_aux (a b : Char) :
    ∀ (n : ℕ) (s : List Char), s.length ≤ n → ∀ k : ℕ, 0 < k →
      k ≤ countOcc2 s a b →
      ∃ i, i + 2 * k ≤ s.length ∧ s.getD i 'a' = a ∧ s.getD (i + 1) 'a' = b := by
  intro n
  induction n with
  | zero =>
    intro s hs k hk hc
    have hnil : s = [] := List.eq_nil_of_length_eq_zero (Nat.le_zero.mp hs)
    subst hnil
    simp only [countOcc2] at hc
    omega
  | succ n ih =>
    intro s hs k hk hc
    cases s with
    | nil => simp only [countOcc2] at hc; omega
    | cons x t =>
      cases t with
      | nil => simp only [countOcc2] at hc; omega
      | cons y rest =>
        simp only [countOcc2] at hc
        by_cases hxy : x = a ∧ y = b
        · rw [if_pos hxy] at hc
          by_cases hk1 : k = 1
          · subst hk1
            exact ⟨0, by simp, by simpa using hxy.1, by simpa using hxy.2⟩
          · have hrest : k - 1 ≤ countOcc2 rest a b := by omega
            have hlen : rest.length ≤ n := by
              simp only [List.length_cons] at hs; omega
            obtain ⟨i, hi, -, -⟩ := ih rest hlen (k - 1) (by omega) hrest
            refine ⟨0, ?_, by simpa using hxy.1, by simpa using hxy.2⟩
            simp only [List.length_cons]
            omega
        · rw [if_neg hxy] at hc
          have hlen : (y :: rest).length ≤ n := by
            simp only [List.length_cons] at hs ⊢; omega
          obtain ⟨i, hi, hia, hib⟩ := ih (y :: rest) hlen k hk hc
          refine ⟨i + 1, ?_, ?_, ?_⟩
          · simp only [List.length_cons] at hi ⊢; omega
          · simpa [List.getD_cons_succ] using hia
          · simpa [List.getD_cons_succ] using hib

/-- Wrapper for `countOcc2_match_aux` at `n = s.length`. -/
theorem countOcc2_exists_match {s : List Char} {a b : Char} {k : ℕ}
    (hk : 0 < k) (hc : k ≤ countOcc2 s a b) :
    ∃ i, i + 2 * k ≤ s.length ∧ s.getD i 'a' = a ∧ s.getD (i + 1) 'a' = b :=
  countOcc2_match_aux a b s.length s le_rfl k hk hc

/-- C8 counterexample: `"abcddd"` has three identical consecutive
characters (and length ≥ 4), so the claimed flag is true, but the code's
flag is false — the sequential-repetition scan stops at
`range(len - 5)` and never reaches the trailing `ddd`. -/
theorem claim8_counterexample :
    specRepeatedPattern "abcddd".data = true ∧
    hasRepeatedPattern "abcddd".data = false ∧
    4 ≤ "abcddd".data.length := by decide!

/-- C8 amended: the flag is true exactly when some 2-character substring
has non-overlapping count ≥ 3 (this clause is as claimed: the scan bound
`len - 3` is harmless because a count of 3 forces a match by index
`len - 6`), or some 3 consecutive identical characters START at an index
`i` with `i + 6 ≤ length` — the last three start positions are never
examined.  Addresses shorter than 4 characters are never flagged (they
cannot satisfy either clause, as both force length ≥ 6). -/
theorem claim8_repeated_pattern_exact (addr : List Char) :
    hasRepeatedPattern addr = true ↔
      ((∃ j, j + 2 ≤ addr.length ∧
          3 ≤ countOcc2 addr (addr.getD j 'a') (addr.getD (j + 1) 'a')) ∨
       (∃ i, i + 6 ≤ addr.length ∧
          addr.getD i 'a' = addr.getD (i + 1) 'a' ∧
          addr.getD (i + 1) 'a' = addr.getD (i + 2) 'a')) := by
  unfold hasRepeatedPattern
  constructor
  · intro hfl
    split_ifs at hfl with h4 h1 h2
    · left
      obtain ⟨i, hmem, hp⟩ := List.any_eq_true.mp h1
      rw [List.mem_range] at hmem
      exact ⟨i, by omega, of_decide_eq_true hp⟩
    · right
      obtain ⟨i, hmem, hp⟩ := List.any_eq_true.mp h2
      rw [List.mem_range] at hmem
      have hp2 := of_decide_eq_true hp
      exact ⟨i, by omega, hp2.1, hp2.2⟩
  · intro hrhs
    have hlen6 : 6 ≤ addr.length := by
      rcases hrhs with ⟨j, _, hcnt⟩ | ⟨i, hi, -, -⟩
      · obtain ⟨i, hlen, -, -⟩ :=
          countOcc2_exists_match (k := 3) (by norm_num) hcnt
        omega
      · omega
    split_ifs with h4 h1 h2
    · exact absurd hlen6 (by omega)
    · rfl
    · rfl
    · exfalso
      rcases hrhs with ⟨j, hj, hcnt⟩ | ⟨i, hi, hh1, hh2⟩
      · obtain ⟨i, hlen, hia, hib⟩ :=
          countOcc2_exists_match (k := 3) (by norm_num) hcnt
        apply h1
        refine List.any_eq_true.mpr ⟨i, List.mem_range.mpr (by omega),
          decide_eq_true ?_⟩
        rw [hia, hib]
        exact hcnt
      · exact h2 (List.any_eq_true.mpr ⟨i, List.mem_range.mpr (by omega),
          decide_eq_true ⟨hh1, hh2⟩⟩)

end Aptash
